import Mathlib

/-!
Verification development for the gpuautoscaler control plane.

Shallow embedding of the Go sources:
  * pkg/sharing/mig.go, mps.go (MIG profile table and pod conversions)
  * the GPU-optimization admission webhook (GPUOptimizationWebhook.Handle and
    its strategy selection / mutation helpers)
  * pkg/autoscaler/controller.go (scaling decision engine)
  * pkg/autoscaler/metrics.go (spot orchestrator graceful eviction)
  * pkg/cost/budget_controller.go (budget status and scope spend)

Conventions: Go maps are modelled as association lists with in-place update
(insert replaces the value of an existing key, otherwise appends); Go
durations and wall-clock instants are integers (seconds); float64 quantities
that only feed exact comparisons are rationals, and the one place where IEEE
semantics matter (0/0 = NaN in selectCapacityType) is modelled explicitly.
Resource quantities are natural numbers (Quantity.Value rounds up to an
integer in the source).
-/

namespace GpuAutoscaler

/-- Association-list map with Go map semantics for the operations used by the
sources. `amapLookup` returns the value of the first (and, for maps built by
`amapInsert`, only) entry with the key. -/
def amapLookup {α : Type} : List (String × α) → String → Option α
  | [], _ => none
  | (k, v) :: rest, key => if k = key then some v else amapLookup rest key

/-- Go `m[k] = v`: replace the entry in place if the key is present, else
append a new entry. -/
def amapInsert {α : Type} : List (String × α) → String → α → List (String × α)
  | [], key, val => [(key, val)]
  | (k, v) :: rest, key, val =>
      if k = key then (key, val) :: rest else (k, v) :: amapInsert rest key val

/-- Go `delete(m, k)`: remove the entry for the key. -/
def amapErase {α : Type} : List (String × α) → String → List (String × α)
  | [], _ => []
  | (k, v) :: rest, key =>
      if k = key then amapErase rest key else (k, v) :: amapErase rest key

/-- Go `m[k]` on a map read in value position: returns the zero value when the
key is absent (for string maps the empty string). -/
def amapLookupD {α : Type} (m : List (String × α)) (key : String) (d : α) : α :=
  (amapLookup m key).getD d

/-! ## MIG profile table (pkg/sharing/mig.go) -/

/-- MIGProfile from pkg/sharing/mig.go; Memory is in MB. -/
structure MIGProfile where
  name : String
  sliceCount : Nat
  memory : Nat
  compute : Nat
  deviceID : String
deriving DecidableEq, Repr

def MIGProfile1g5gb : MIGProfile :=
  { name := "1g.5gb", sliceCount := 1, memory := 5120, compute := 1, deviceID := "1g.5gb" }

def MIGProfile2g10gb : MIGProfile :=
  { name := "2g.10gb", sliceCount := 2, memory := 10240, compute := 2, deviceID := "2g.10gb" }

def MIGProfile3g20gb : MIGProfile :=
  { name := "3g.20gb", sliceCount := 3, memory := 20480, compute := 3, deviceID := "3g.20gb" }

def MIGProfile4g20gb : MIGProfile :=
  { name := "4g.20gb", sliceCount := 4, memory := 20480, compute := 4, deviceID := "4g.20gb" }

def MIGProfile7g40gb : MIGProfile :=
  { name := "7g.40gb", sliceCount := 7, memory := 40960, compute := 7, deviceID := "7g.40gb" }

def MIGProfile1g10gb : MIGProfile :=
  { name := "1g.10gb", sliceCount := 1, memory := 10240, compute := 1, deviceID := "1g.10gb" }

def MIGProfile2g20gb : MIGProfile :=
  { name := "2g.20gb", sliceCount := 2, memory := 20480, compute := 2, deviceID := "2g.20gb" }

def MIGProfile3g40gb : MIGProfile :=
  { name := "3g.40gb", sliceCount := 3, memory := 40960, compute := 3, deviceID := "3g.40gb" }

def MIGProfile4g40gb : MIGProfile :=
  { name := "4g.40gb", sliceCount := 4, memory := 40960, compute := 4, deviceID := "4g.40gb" }

def MIGProfile7g80gb : MIGProfile :=
  { name := "7g.80gb", sliceCount := 7, memory := 81920, compute := 7, deviceID := "7g.80gb" }

/-- GetSupportedProfiles from pkg/sharing/mig.go: the ten profiles in declared
order (A100-40GB block first, then A100-80GB). -/
def GetSupportedProfiles : List MIGProfile :=
  [MIGProfile1g5gb, MIGProfile2g10gb, MIGProfile3g20gb, MIGProfile4g20gb,
   MIGProfile7g40gb, MIGProfile1g10gb, MIGProfile2g20gb, MIGProfile3g40gb,
   MIGProfile4g40gb, MIGProfile7g80gb]

/-- The loop body of GetMIGProfile: return the first profile of the list with
profile.Compute >= gpuRequest and profile.Memory >= memoryMB. -/
def findProfile (gpuRequest memoryMB : Nat) : List MIGProfile → Option MIGProfile
  | [] => none
  | p :: rest =>
      if gpuRequest ≤ p.compute ∧ memoryMB ≤ p.memory then some p
      else findProfile gpuRequest memoryMB rest

/-- GetMIGProfile from pkg/sharing/mig.go: memoryRequest is in bytes and is
truncated to MB (Go integer division), then the first fitting profile of
GetSupportedProfiles is returned; the Go version returns an error when none
fits, modelled as `none`. -/
def GetMIGProfile (gpuRequest : Nat) (memoryRequest : Nat) : Option MIGProfile :=
  findProfile gpuRequest (memoryRequest / (1024 * 1024)) GetSupportedProfiles

/-- GetMIGDeviceResourceName from pkg/sharing/mig.go. -/
def GetMIGDeviceResourceName (profile : MIGProfile) : String :=
  "nvidia.com/mig-" ++ profile.deviceID

/-! ## Pods, as seen by the admission webhook -/

/-- A pod toleration (key, operator, effect), from corev1.Toleration, with the
fields the sources touch. -/
structure Toleration where
  key : String
  op : String
  effect : String
deriving DecidableEq, Repr

/-- A container with its resource requests and limits. Values are the integer
resource quantities (Quantity.Value in the source). The memory request is
stored under the key "memory". -/
structure Container where
  requests : List (String × Nat)
  limits : List (String × Nat)
deriving DecidableEq, Repr

/-- The slice of corev1.Pod the webhook and the sharing managers read or
mutate. -/
structure Pod where
  annotations : List (String × String)
  labels : List (String × String)
  nodeSelector : List (String × String)
  tolerations : List Toleration
  containers : List Container
deriving DecidableEq, Repr

/-- hasGPURequest from the webhook source: some container requests or limits
the whole-GPU key. -/
def hasGPURequest (pod : Pod) : Bool :=
  pod.containers.any fun c =>
    (amapLookup c.requests "nvidia.com/gpu").isSome
      || (amapLookup c.limits "nvidia.com/gpu").isSome

/-- getTotalGPURequest from the webhook source: sum of the whole-GPU requests
over all containers (containers without the key contribute nothing). -/
def getTotalGPURequest (pod : Pod) : Nat :=
  pod.containers.foldl
    (fun total c =>
      match amapLookup c.requests "nvidia.com/gpu" with
      | some v => total + v
      | none => total) 0

/-- getTotalMemoryRequest from the webhook source: sum of the memory requests
in bytes over all containers. -/
def getTotalMemoryRequest (pod : Pod) : Nat :=
  pod.containers.foldl
    (fun total c =>
      match amapLookup c.requests "memory" with
      | some v => total + v
      | none => total) 0

/-! ## Sharing-mode pod conversions (pkg/sharing) -/

/-- ConvertPodToMIG from pkg/sharing/mig.go: record the original whole-GPU
request and the profile in annotations, then for every container that has a
whole-GPU request drop the whole-GPU key from requests and limits and add the
MIG device key at quantity 1. -/
def ConvertPodToMIG (profile : MIGProfile) (pod : Pod) : Pod :=
  let originalGPURequest := getTotalGPURequest pod
  let anns := amapInsert pod.annotations "gpu-autoscaler.io/original-gpu-request"
    (toString originalGPURequest)
  let anns := amapInsert anns "gpu-autoscaler.io/mig-profile" profile.name
  let migResourceName := GetMIGDeviceResourceName profile
  let containers := pod.containers.map fun c =>
    match amapLookup c.requests "nvidia.com/gpu" with
    | some _ =>
        { requests := amapInsert (amapErase c.requests "nvidia.com/gpu") migResourceName 1,
          limits := amapInsert (amapErase c.limits "nvidia.com/gpu") migResourceName 1 }
    | none => c
  { pod with annotations := anns, containers := containers }

/-- MPSConfig from pkg/sharing/mps.go (fields used by the pod conversion). -/
structure MPSConfig where
  enabled : Bool
  maxClients : Nat
  defaultActiveThreads : Nat
  memoryLimit : Nat
deriving Repr

/-- DefaultMPSConfig from pkg/sharing/mps.go. -/
def DefaultMPSConfig : MPSConfig :=
  { enabled := true, maxClients := 16, defaultActiveThreads := 100, memoryLimit := 0 }

/-- ConvertPodToMPS from pkg/sharing/mps.go: annotate for MPS, re-store the
whole-GPU request and limit on each GPU container (adding the shared-GPU key
when the request is below one whole GPU), and require MPS-enabled nodes. -/
def ConvertPodToMPS (config : MPSConfig) (pod : Pod) : Pod :=
  let originalGPURequest := getTotalGPURequest pod
  let anns := amapInsert pod.annotations "gpu-autoscaler.io/original-gpu-request"
    (toString originalGPURequest)
  let anns := amapInsert anns "gpu-autoscaler.io/mps-enabled" "true"
  let anns := amapInsert anns "nvidia.com/mps" "enabled"
  let anns :=
    if 0 < config.defaultActiveThreads then
      amapInsert anns "nvidia.com/mps.active-threads" (toString config.defaultActiveThreads)
    else anns
  let anns :=
    if 0 < config.memoryLimit then
      amapInsert anns "nvidia.com/mps.memory-limit" (toString config.memoryLimit)
    else anns
  let containers := pod.containers.map fun c =>
    match amapLookup c.requests "nvidia.com/gpu" with
    | some q =>
        let c1 : Container :=
          { requests := amapInsert c.requests "nvidia.com/gpu" q,
            limits := amapInsert c.limits "nvidia.com/gpu" q }
        if q < 1 then
          { requests := amapInsert c1.requests "nvidia.com/gpu.shared" 1,
            limits := amapInsert c1.limits "nvidia.com/gpu.shared" 1 }
        else c1
    | none => c
  { pod with annotations := anns, containers := containers,
             nodeSelector := amapInsert pod.nodeSelector "nvidia.com/mps.enabled" "true" }

/-- ConvertPodToTimeSlicing from pkg/sharing (time-slicing manager): annotate
for time-slicing, re-store the whole-GPU request and limit on each GPU
container, require time-slicing-enabled nodes, and add the time-slicing
toleration unless one with that key is already present. The replicasPerGPU
argument is only logged by the source. -/
def ConvertPodToTimeSlicing (replicasPerGPU : Nat) (pod : Pod) : Pod :=
  let _ := replicasPerGPU
  let originalGPURequest := getTotalGPURequest pod
  let anns := amapInsert pod.annotations "gpu-autoscaler.io/original-gpu-request"
    (toString originalGPURequest)
  let anns := amapInsert anns "gpu-autoscaler.io/time-slicing-enabled" "true"
  let anns := amapInsert anns "nvidia.com/time-slicing" "enabled"
  let containers := pod.containers.map fun c =>
    match amapLookup c.requests "nvidia.com/gpu" with
    | some q =>
        { requests := amapInsert c.requests "nvidia.com/gpu" q,
          limits := amapInsert c.limits "nvidia.com/gpu" q }
    | none => c
  let hasTimeSlicingToleration := pod.tolerations.any (·.key = "nvidia.com/time-slicing")
  let tolerations :=
    if hasTimeSlicingToleration then pod.tolerations
    else pod.tolerations ++
      [{ key := "nvidia.com/time-slicing", op := "Exists", effect := "NoSchedule" }]
  { pod with annotations := anns, containers := containers,
             nodeSelector := amapInsert pod.nodeSelector "nvidia.com/time-slicing.enabled" "true",
             tolerations := tolerations }

/-! ## The GPU optimization webhook -/

/-- The webhook feature toggles (enableMIG, enableMPS, enableTS). -/
structure WebhookCfg where
  enableMIG : Bool
  enableMPS : Bool
  enableTS : Bool
deriving DecidableEq, Repr

/-- selectOptimizationStrategy from the webhook source. The explicit
sharing-mode annotation is returned verbatim; otherwise the heuristics run in
order (training, small-MIG, inference-MPS, development-or-batch time-slicing,
explicit sharing opt-in, default exclusive). The Go function can only ever
return a nil error, so it is total here. -/
def selectOptimizationStrategy (w : WebhookCfg) (pod : Pod) : String :=
  match amapLookup pod.annotations "gpu-autoscaler.io/sharing-mode" with
  | some strategy => strategy
  | none =>
    let gpuRequest := getTotalGPURequest pod
    let memoryRequest := getTotalMemoryRequest pod
    let workloadType := amapLookupD pod.labels "gpu-autoscaler.io/workload-type" ""
    if workloadType = "training" then "exclusive"
    else if w.enableMIG ∧ gpuRequest = 1 ∧ memoryRequest < 20 * 1024 * 1024 * 1024 then "mig"
    else if w.enableMPS ∧ workloadType = "inference" then "mps"
    else if w.enableTS ∧ (workloadType = "development" ∨ workloadType = "batch") then
      "timeslicing"
    else if amapLookupD pod.annotations "gpu-autoscaler.io/sharing" "" = "enabled" then
      if w.enableMPS then "mps"
      else if w.enableTS then "timeslicing"
      else "exclusive"
    else "exclusive"

/-- Outcome of one of the applyXOptimization mutation steps. `panicked` models
the Go panic raised by the unchecked type assertion
ctx.Value("timestamp").(string) when the context does not carry a string at
that key; the context is modelled as its (optional) string timestamp value. -/
inductive MutationResult
  | ok (pod : Pod)
  | failed
  | panicked
deriving DecidableEq, Repr

/-- The optimization metadata block appended by each applyXOptimization after
a successful conversion ("optimized", strategy, timestamp annotations). -/
def setOptimizationMeta (pod : Pod) (strategy ts : String) : Pod :=
  let anns := amapInsert pod.annotations "gpu-autoscaler.io/optimized" "true"
  let anns := amapInsert anns "gpu-autoscaler.io/optimization-strategy" strategy
  let anns := amapInsert anns "gpu-autoscaler.io/optimization-timestamp" ts
  { pod with annotations := anns }

/-- applyMIGOptimization from the webhook source: select a profile (error when
none fits), convert the pod, then write the optimization metadata — reading
the timestamp out of the context with an unchecked type assertion. -/
def applyMIGOptimization (ctxTimestamp : Option String) (pod : Pod) : MutationResult :=
  match GetMIGProfile (getTotalGPURequest pod) (getTotalMemoryRequest pod) with
  | none => .failed
  | some profile =>
      let p := ConvertPodToMIG profile pod
      match ctxTimestamp with
      | none => .panicked
      | some ts => .ok (setOptimizationMeta p "mig" ts)

/-- applyMPSOptimization from the webhook source (conversion cannot fail). -/
def applyMPSOptimization (ctxTimestamp : Option String) (pod : Pod) : MutationResult :=
  let p := ConvertPodToMPS DefaultMPSConfig pod
  match ctxTimestamp with
  | none => .panicked
  | some ts => .ok (setOptimizationMeta p "mps" ts)

/-- applyTimeSlicingOptimization from the webhook source (conversion cannot
fail; replicasPerGPU is the hard-coded 4). -/
def applyTimeSlicingOptimization (ctxTimestamp : Option String) (pod : Pod) : MutationResult :=
  let p := ConvertPodToTimeSlicing 4 pod
  match ctxTimestamp with
  | none => .panicked
  | some ts => .ok (setOptimizationMeta p "timeslicing" ts)

/-- The admission responses Handle can produce: an errored response with an
HTTP code, an allow with no patch (the pod is admitted unchanged), a patch
response carrying the mutated pod, or a propagated panic. -/
inductive HandleResult
  | errored (code : Nat)
  | allowed
  | patched (pod : Pod)
  | panicked
deriving DecidableEq, Repr

/-- The strategy switch inside Handle together with the final `modified`
check: a successful mutation yields a patch response; a mutation error is
logged and leaves `modified` false, so the original pod is allowed unchanged;
a disabled or unknown strategy (and "exclusive") is allowed unchanged. -/
def runStrategy (w : WebhookCfg) (ctxTimestamp : Option String) (strategy : String)
    (pod : Pod) : HandleResult :=
  if strategy = "mig" then
    if w.enableMIG then
      match applyMIGOptimization ctxTimestamp pod with
      | .ok p => .patched p
      | .failed => .allowed
      | .panicked => .panicked
    else .allowed
  else if strategy = "mps" then
    if w.enableMPS then
      match applyMPSOptimization ctxTimestamp pod with
      | .ok p => .patched p
      | .failed => .allowed
      | .panicked => .panicked
    else .allowed
  else if strategy = "timeslicing" then
    if w.enableTS then
      match applyTimeSlicingOptimization ctxTimestamp pod with
      | .ok p => .patched p
      | .failed => .allowed
      | .panicked => .panicked
    else .allowed
  else .allowed

/-- GPUOptimizationWebhook.Handle. The admission request is modelled by the
result of decoding it (`none` for a decode failure, in which case the Go code
returns admission.Errored with http.StatusBadRequest). Non-GPU pods and pods
with the optimize=false annotation are allowed unchanged; otherwise the
selected strategy runs. Marshalling of the mutated pod cannot fail in the
model, and strategy selection never errors, so the 500 paths of the source are
unreachable. -/
def Handle (w : WebhookCfg) (ctxTimestamp : Option String) (decoded : Option Pod) :
    HandleResult :=
  match decoded with
  | none => .errored 400
  | some pod =>
    if ¬ hasGPURequest pod then .allowed
    else if amapLookupD pod.annotations "gpu-autoscaler.io/optimize" "" = "false" then
      .allowed
    else runStrategy w ctxTimestamp (selectOptimizationStrategy w pod) pod

/-- The rewrite performed on an admitted pod: the patched pod when Handle
produced a patch, the original pod otherwise. -/
def rewritePod (w : WebhookCfg) (ctxTimestamp : Option String) (pod : Pod) : Pod :=
  match Handle w ctxTimestamp (some pod) with
  | .patched q => q
  | _ => pod

/-! ## Autoscaling decision engine (pkg/autoscaler/controller.go) -/

/-- The capacity-type node label gpu-autoscaler.io/capacity-type. -/
def CapacityTypeLabel : String := "gpu-autoscaler.io/capacity-type"

/-- A GPU node as the decision engine reads it: only its labels matter. -/
structure ClusterNode where
  labels : List (String × String)
deriving DecidableEq, Repr

/-- A pending GPU pod: creation timestamp (seconds) and optional priority. -/
structure PendingPod where
  creationTimestamp : Int
  priority : Option Int
deriving DecidableEq, Repr

/-- NodePoolConfig (the fields the decision path reads). -/
structure NodePoolConfig where
  name : String
  capacityType : String
deriving DecidableEq, Repr

/-- AutoscalerConfig from pkg/autoscaler/controller.go. Durations are in
seconds; thresholds and the spot share are rationals standing for the float64
fields. -/
structure AutoscalerConfig where
  scaleUpThreshold : ℚ
  scaleDownThreshold : ℚ
  scaleUpCooldown : Int
  scaleDownCooldown : Int
  pendingPodTimeout : Int
  maxNodes : Nat
  minNodes : Nat
  spotInstancePercentage : ℚ
  enablePredictiveScaling : Bool
  nodePools : List NodePoolConfig
deriving Repr

inductive ScalingAction
  | scaleUp
  | scaleDown
  | noAction
deriving DecidableEq, Repr

/-- ScalingDecision from pkg/autoscaler/controller.go. -/
structure ScalingDecision where
  action : ScalingAction
  reason : String
  desiredNodeCount : Nat
  capacityType : String
  nodePool : String
  priority : Int
  gpuUtilization : ℚ
  pendingPods : Nat
  underutilizedNodes : Nat
deriving DecidableEq, Repr

/-- The fields of ScalingPrediction (pkg/autoscaler/predictive_scaler.go) read
by applyPredictiveScaling. The prediction itself is an input of the decision
tick here. -/
structure ScalingPrediction where
  predictedUtilization : ℚ
  recommendedNodes : Nat
  shouldPreWarm : Bool
deriving DecidableEq, Repr

/-- getOldestPendingPod: the pod with the strictly earliest creation
timestamp, the first one winning ties (CreationTimestamp.Before is strict). -/
def getOldestPendingPod : List PendingPod → PendingPod
  | [] => { creationTimestamp := 0, priority := none }
  | p :: rest =>
      rest.foldl
        (fun oldest q =>
          if q.creationTimestamp < oldest.creationTimestamp then q else oldest) p

/-- shouldScaleUp from pkg/autoscaler/controller.go: refuse during the
scale-up cooldown or at max nodes; then scale up when the oldest pending pod
has waited longer than the pending-pod timeout, or when utilization exceeds
the scale-up threshold and there is at least one node. time.Since(t) is
now − t. -/
def shouldScaleUp (cfg : AutoscalerConfig) (lastScaleUpTime now : Int)
    (nodes : List ClusterNode) (pendingPods : List PendingPod)
    (avgUtilization : ℚ) : Bool :=
  if now - lastScaleUpTime < cfg.scaleUpCooldown then false
  else if cfg.maxNodes ≤ nodes.length then false
  else if 0 < pendingPods.length ∧
      cfg.pendingPodTimeout < now - (getOldestPendingPod pendingPods).creationTimestamp then
    true
  else if cfg.scaleUpThreshold < avgUtilization ∧ 0 < nodes.length then true
  else false

/-- shouldScaleDown from pkg/autoscaler/controller.go. -/
def shouldScaleDown (cfg : AutoscalerConfig) (lastScaleDownTime now : Int)
    (nodes : List ClusterNode) (avgUtilization : ℚ) (underutilizedNodes : Nat) : Bool :=
  if now - lastScaleDownTime < cfg.scaleDownCooldown then false
  else if nodes.length ≤ cfg.minNodes then false
  else if 0 < underutilizedNodes ∧ avgUtilization < cfg.scaleDownThreshold then true
  else false

/-- calculateScaleUpNodeCount: target = min(|nodes| + ceil(pending / 4),
maxNodes). The Go ceil over float64 is exact for these integer sizes. -/
def calculateScaleUpNodeCount (cfg : AutoscalerConfig) (nodes : List ClusterNode)
    (pendingPods : List PendingPod) : Nat :=
  let nodesNeeded := (pendingPods.length + 3) / 4
  min (nodes.length + nodesNeeded) cfg.maxNodes

/-- calculateScaleDownNodeCount: nodesToRemove =
int(math.Min(float64(underutilized), float64(len(nodes))*0.2)). Since the
underutilized count is an integer, truncating the min equals
min(underutilized, floor(0.2·n)), and floor(float64(n)*0.2) = n / 5 for every
node count in the representable range (the rounded product of n with the
float 0.2 never crosses an integer boundary). Then the target is clamped
below by minNodes. -/
def calculateScaleDownNodeCount (cfg : AutoscalerConfig) (nodes : List ClusterNode)
    (underutilizedNodes : Nat) : Nat :=
  let nodesToRemove := min underutilizedNodes (nodes.length / 5)
  max (nodes.length - nodesToRemove) cfg.minNodes

/-- calculateScalingPriority: the maximum explicit pod priority, else 0. -/
def calculateScalingPriority (pendingPods : List PendingPod) : Int :=
  pendingPods.foldl
    (fun maxPriority p =>
      match p.priority with
      | some x => if maxPriority < x then x else maxPriority
      | none => maxPriority) 0

/-- getPreferredNodePool: the first pool with the capacity type, else the
first pool, else "default". -/
def getPreferredNodePool (cfg : AutoscalerConfig) (capacityType : String) : String :=
  match cfg.nodePools.find? (fun pool => pool.capacityType = capacityType) with
  | some pool => pool.name
  | none =>
    match cfg.nodePools with
    | pool :: _ => pool.name
    | [] => "default"

/-- selectCapacityType from pkg/autoscaler/controller.go. The Go code
computes spotPercentage = float64(spotNodes) / float64(totalNodes) with no
guard: with zero nodes this is 0.0/0.0 = NaN, and NaN < SpotInstancePercentage
is false, so the on-demand branch is taken; the rational comparison is only
reached when totalNodes is nonzero. -/
def selectCapacityType (cfg : AutoscalerConfig) (nodes : List ClusterNode) :
    String × String :=
  let spotNodes :=
    (nodes.filter (fun n => amapLookupD n.labels CapacityTypeLabel "" = "spot")).length
  let totalNodes := nodes.length
  if totalNodes ≠ 0 ∧ (spotNodes : ℚ) / (totalNodes : ℚ) < cfg.spotInstancePercentage then
    ("spot", getPreferredNodePool cfg "spot")
  else
    ("on-demand", getPreferredNodePool cfg "on-demand")

/-- selectNodesForScaleDown: report "spot" when any node is spot-labelled. -/
def selectNodesForScaleDown (nodes : List ClusterNode) : String :=
  if nodes.any (fun n => amapLookupD n.labels CapacityTypeLabel "" = "spot") then "spot"
  else "on-demand"

/-- getScaleUpReason (the numeric formatting of the utilization message is
elided). -/
def getScaleUpReason (pendingPods : List PendingPod) : String :=
  if 0 < pendingPods.length then
    toString pendingPods.length ++ " pending GPU pods waiting"
  else "GPU utilization exceeds threshold"

/-- getScaleDownReason (numeric formatting elided). -/
def getScaleDownReason : String :=
  "GPU utilization below threshold with underutilized nodes"

/-- applyPredictiveScaling from pkg/autoscaler/controller.go: when the
prediction recommends pre-warming and more nodes than the decision so far, it
overrides the action to scale-up with the predicted target — with no check of
the scale-up cooldown. -/
def applyPredictiveScaling (prediction : ScalingPrediction)
    (decision : ScalingDecision) : ScalingDecision :=
  if prediction.shouldPreWarm ∧ decision.desiredNodeCount < prediction.recommendedNodes then
    { decision with
        action := .scaleUp,
        reason := "predictive scaling: expected load increase",
        desiredNodeCount := prediction.recommendedNodes }
  else decision

/-- analyzeClusterState from pkg/autoscaler/controller.go, as a pure function
of the listed nodes, pending pods, measured utilization (0 on metric error),
underutilized-node count, the wall clock and cooldown state, and the
predictive recommendation (the predictive scaler is non-nil exactly when
EnablePredictiveScaling is set). -/
def analyzeClusterState (cfg : AutoscalerConfig) (lastScaleUpTime lastScaleDownTime now : Int)
    (nodes : List ClusterNode) (pendingPods : List PendingPod)
    (avgUtilization : ℚ) (underutilizedNodes : Nat)
    (prediction : ScalingPrediction) : ScalingDecision :=
  let base : ScalingDecision :=
    { action := .noAction, reason := "cluster stable",
      desiredNodeCount := nodes.length, capacityType := "", nodePool := "",
      priority := 0, gpuUtilization := avgUtilization,
      pendingPods := pendingPods.length, underutilizedNodes := underutilizedNodes }
  let decision :=
    if shouldScaleUp cfg lastScaleUpTime now nodes pendingPods avgUtilization then
      let ct := selectCapacityType cfg nodes
      { base with
          action := .scaleUp,
          reason := getScaleUpReason pendingPods,
          desiredNodeCount := calculateScaleUpNodeCount cfg nodes pendingPods,
          capacityType := ct.1, nodePool := ct.2,
          priority := calculateScalingPriority pendingPods }
    else if shouldScaleDown cfg lastScaleDownTime now nodes avgUtilization underutilizedNodes then
      { base with
          action := .scaleDown,
          reason := getScaleDownReason,
          desiredNodeCount := calculateScaleDownNodeCount cfg nodes underutilizedNodes,
          capacityType := selectNodesForScaleDown nodes }
    else base
  if cfg.enablePredictiveScaling then applyPredictiveScaling prediction decision
  else decision

/-! ## Spot orchestrator graceful eviction (pkg/autoscaler/metrics.go) -/

/-- A workload on a node under reclamation, with the fields
getPodEvictionPriority reads. -/
structure WorkloadPod where
  name : String
  annotations : List (String × String)
  labels : List (String × String)
  priority : Option Int
deriving DecidableEq, Repr

/-- getPodEvictionPriority from pkg/autoscaler/metrics.go: the explicit
eviction-priority annotation wins verbatim; else the workload-type label maps
training to high, inference and serving to medium, development and batch to
low (an unrecognized value falls through); else a pod priority above 1000 is
high; else medium. -/
def getPodEvictionPriority (pod : WorkloadPod) : String :=
  match amapLookup pod.annotations "gpu-autoscaler.io/eviction-priority" with
  | some priority => priority
  | none =>
    let byWorkloadType : Option String :=
      match amapLookup pod.labels "gpu-autoscaler.io/workload-type" with
      | some "training" => some "high"
      | some "inference" => some "medium"
      | some "serving" => some "medium"
      | some "development" => some "low"
      | some "batch" => some "low"
      | _ => none
    match byWorkloadType with
    | some p => p
    | none =>
      match pod.priority with
      | some x => if 1000 < x then "high" else "medium"
      | none => "medium"

/-- One observable step of a drain: an eviction (pod deletion with a grace
period, in seconds) or a pause. -/
inductive DrainEvent
  | evict (pod : WorkloadPod) (gracePeriodSeconds : Nat)
  | pause (seconds : Nat)
deriving DecidableEq, Repr

/-- evictPods from pkg/autoscaler/metrics.go: delete each pod of the list in
order with the given grace period. -/
def evictPods (pods : List WorkloadPod) (gracePeriodSeconds : Nat) : List DrainEvent :=
  pods.map fun p => .evict p gracePeriodSeconds

/-- gracefullyEvictPods from pkg/autoscaler/metrics.go, as the trace of
eviction and pause events it performs for the pods on one node: bucket the
pods by eviction priority (pods whose priority string is none of the three
values land in no bucket), then evict low with 0 s grace, sleep 10 s, evict
medium with 0 s grace, sleep 10 s, evict high with 30 s grace. -/
def gracefullyEvictPods (podsOnNode : List WorkloadPod) : List DrainEvent :=
  let highPriorityPods := podsOnNode.filter fun p => getPodEvictionPriority p = "high"
  let mediumPriorityPods := podsOnNode.filter fun p => getPodEvictionPriority p = "medium"
  let lowPriorityPods := podsOnNode.filter fun p => getPodEvictionPriority p = "low"
  evictPods lowPriorityPods 0 ++ [.pause 10] ++
    evictPods mediumPriorityPods 0 ++ [.pause 10] ++
    evictPods highPriorityPods 30

/-! ## Budget controller (pkg/cost/budget_controller.go) -/

/-- One row of the cost_data table of pkg/cost/roi_reporter.go, with the
columns the two budget queries read (time, pod_name, namespace, team,
cumulative_cost). The primary key is (time, pod_name, namespace), so no two
rows of a well-formed store agree on all three. Times are integer
timestamps. -/
structure CostRow where
  time : Int
  podName : String
  ns : String
  team : String
  cumulativeCost : ℚ
deriving DecidableEq, Repr

/-- SQL COALESCE(MAX(col), 0): the maximum of the selected values, or 0 when
no row matched. -/
def sqlMaxOrZero (values : List ℚ) : ℚ :=
  match values with
  | [] => 0
  | x :: rest => rest.foldl max x

/-- GetCostByNamespace from pkg/cost/roi_reporter.go (TimescaleDBClient):
SELECT COALESCE(MAX(cumulative_cost), 0) FROM cost_data WHERE the namespace
matches and start <= time <= stop. -/
def GetCostByNamespace (store : List CostRow) (ns : String) (start stop : Int) : ℚ :=
  sqlMaxOrZero
    ((store.filter (fun r => r.ns = ns ∧ start ≤ r.time ∧ r.time ≤ stop)).map
      (fun r => r.cumulativeCost))

/-- The distinct (pod_name, namespace) groups of a row selection, in first
appearance order. -/
def podGroups (rows : List CostRow) : List (String × String) :=
  (rows.map (fun r => (r.podName, r.ns))).dedup

/-- The cumulative_cost of the latest-time row of one (pod_name, namespace)
group — the row DISTINCT ON (pod_name, namespace) ... ORDER BY pod_name,
namespace, time DESC keeps. The primary key makes times within a group
distinct, so the latest row is unique. -/
def latestCostOfGroup (rows : List CostRow) (key : String × String) : ℚ :=
  match rows.filter (fun r => r.podName = key.1 ∧ r.ns = key.2) with
  | [] => 0
  | x :: rest =>
      (rest.foldl (fun best r => if best.time < r.time then r else best) x).cumulativeCost

/-- GetCostByTeam from pkg/cost/roi_reporter.go (TimescaleDBClient):
SELECT COALESCE(SUM(cumulative_cost), 0) over the DISTINCT ON
(pod_name, namespace) latest rows among those whose team matches and whose
time lies in [start, stop]. -/
def GetCostByTeam (store : List CostRow) (team : String) (start stop : Int) : ℚ :=
  let rows := store.filter (fun r => r.team = team ∧ start ≤ r.time ∧ r.time ≤ stop)
  ((podGroups rows).map (latestCostOfGroup rows)).sum

/-- The budget scope fields read by calculateScopeSpend on its DB path. -/
structure BudgetScope where
  namespaces : List String
  teams : List String
deriving Repr

/-- calculateScopeSpend from pkg/cost/budget_controller.go, DB path (DB
non-nil, queries succeeding — a failing query merely contributes nothing):
it adds GetCostByNamespace over scope.Namespaces and then also adds
GetCostByTeam over scope.Teams, over the same [start, stop] period. -/
def calculateScopeSpend (store : List CostRow) (scope : BudgetScope)
    (start stop : Int) : ℚ :=
  (scope.namespaces.map (fun ns => GetCostByNamespace store ns start stop)).sum +
    (scope.teams.map (fun team => GetCostByTeam store team start stop)).sum

/-- The status fields updateBudgetStatus computes that the budget claims are
about (spend, percentage, state string and the exceeded-since timestamp; the
projected spend, day counts and breakdown are elided). -/
structure CostBudgetStatus where
  currentSpend : ℚ
  percentageUsed : ℚ
  budgetStatus : String
  exceededSince : Option Int
deriving DecidableEq, Repr

/-- updateBudgetStatus from pkg/cost/budget_controller.go: percentage =
spend / limit · 100 when the limit is positive (else 0); state is exceeded at
percentage ≥ 100, warning at ≥ 80, else ok; exceededSince is set to now on a
first transition into exceeded, kept while exceeded, and reset to nil
whenever the state is not exceeded. -/
def updateBudgetStatus (monthlyLimit currentSpend : ℚ)
    (prevExceededSince : Option Int) (now : Int) : CostBudgetStatus :=
  let percentageUsed := if 0 < monthlyLimit then currentSpend / monthlyLimit * 100 else 0
  let budgetStatus :=
    if 100 ≤ percentageUsed then "exceeded"
    else if 80 ≤ percentageUsed then "warning"
    else "ok"
  let exceededSince :=
    if budgetStatus = "exceeded" ∧ prevExceededSince = none then some now
    else if budgetStatus ≠ "exceeded" then none
    else prevExceededSince
  { currentSpend := currentSpend, percentageUsed := percentageUsed,
    budgetStatus := budgetStatus, exceededSince := exceededSince }

/-! ## Shared helper lemmas -/

theorem amapLookup_insert_self {α : Type} (m : List (String × α)) (k : String) (v : α) :
    amapLookup (amapInsert m k v) k = some v := by
  induction m with
  | nil => simp [amapInsert, amapLookup]
  | cons hd tl ih =>
    obtain ⟨k2, v2⟩ := hd
    by_cases h : k2 = k
    · simp [amapInsert, h, amapLookup]
    · simp [amapInsert, h, amapLookup, ih]

/-- When strategy selection lands on "mig" and no MIG profile fits the pod's
totals, Handle admits the pod unchanged (allow with no patch), for every
context; this is the only reachable mutation-error path of the webhook. -/
theorem handle_mig_profile_none (w : WebhookCfg) (ts : Option String) (p : Pod)
    (hsel : selectOptimizationStrategy w p = "mig")
    (hprof : GetMIGProfile (getTotalGPURequest p) (getTotalMemoryRequest p) = none) :
    Handle w ts (some p) = HandleResult.allowed := by
  unfold Handle
  by_cases hgpu : hasGPURequest p
  · simp only [hgpu, not_true_eq_false, if_false]
    by_cases hopt : amapLookupD p.annotations "gpu-autoscaler.io/optimize" "" = "false"
    · simp [hopt]
    · simp only [hopt, if_false, hsel, runStrategy, if_pos]
      cases hmig : w.enableMIG with
      | false => simp
      | true => simp [applyMIGOptimization, hprof]
  · simp [hgpu]

/-! ## Claim theorems -/

/-- Config fixture for C4: target cheap share 0.6, spot and on-demand pools
declared in order. -/
def c4cfg : AutoscalerConfig :=
  { scaleUpThreshold := 4/5, scaleDownThreshold := 1/5, scaleUpCooldown := 180,
    scaleDownCooldown := 600, pendingPodTimeout := 120, maxNodes := 10, minNodes := 0,
    spotInstancePercentage := 3/5, enablePredictiveScaling := false,
    nodePools := [{ name := "spot-pool", capacityType := "spot" },
                  { name := "od-pool", capacityType := "on-demand" }] }

/-- C4: with zero in-scope nodes and target cheap share 0.6, the code selects
the on-demand (guaranteed) class, not cheap-interruptible: Go computes
0/0 = NaN and NaN < 0.6 is false, although the cheap fraction that the claim
describes would be 0 < 0.6. -/
theorem c4_zero_nodes_selects_on_demand :
    c4cfg.spotInstancePercentage = 3/5 ∧ (0 : ℚ) < 3/5 ∧
    selectCapacityType c4cfg [] = ("on-demand", "od-pool") := by
  refine ⟨rfl, by norm_num, ?_⟩
  simp [selectCapacityType, getPreferredNodePool, c4cfg]

/-- Config fixture for C7 (only minNodes is read by the function). -/
def c7cfg : AutoscalerConfig :=
  { scaleUpThreshold := 4/5, scaleDownThreshold := 1/5, scaleUpCooldown := 180,
    scaleDownCooldown := 600, pendingPodTimeout := 120, maxNodes := 100, minNodes := 0,
    spotInstancePercentage := 3/5, enablePredictiveScaling := false, nodePools := [] }

/-- C7 counterexample: with 11 nodes, 3 under-utilized and min_nodes = 0 the
code keeps 9 nodes, while the claimed formula
max(n − min(u, ceil(0.2·n)), min_nodes) = max(11 − min(3, 3), 0) yields 8. -/
theorem c7_scale_down_count_counterexample :
    calculateScaleDownNodeCount c7cfg (List.replicate 11 { labels := [] }) 3 = 9 ∧
    max (11 - min 3 ((11 + 4) / 5)) c7cfg.minNodes = 8 := by decide

/-- C7 amended: the scale-down target is max(n − min(u, floor(0.2·n)),
min_nodes) — the code truncates 0.2·n rather than taking its ceiling — and
consequently at most 20% of the nodes (floor) are removed in one tick and the
target never drops below min_nodes. -/
theorem c7_scale_down_count_floor (cfg : AutoscalerConfig) (nodes : List ClusterNode)
    (underutilizedNodes : Nat) :
    calculateScaleDownNodeCount cfg nodes underutilizedNodes
        = max (nodes.length - min underutilizedNodes (nodes.length / 5)) cfg.minNodes ∧
    cfg.minNodes ≤ calculateScaleDownNodeCount cfg nodes underutilizedNodes ∧
    nodes.length - calculateScaleDownNodeCount cfg nodes underutilizedNodes
        ≤ nodes.length / 5 := by
  have h : calculateScaleDownNodeCount cfg nodes underutilizedNodes
      = max (nodes.length - min underutilizedNodes (nodes.length / 5)) cfg.minNodes := rfl
  refine ⟨h, ?_, ?_⟩ <;> rw [h] <;> omega

/-- Store fixture for C5: a single workload p1 in namespace ns1 owned by
team-a, with one persisted row at time 100 carrying cumulative cost 10. -/
def c5store : List CostRow :=
  [{ time := 100, podName := "p1", ns := "ns1", team := "team-a", cumulativeCost := 10 }]

/-- Scope fixture for C5: both a namespace list and a team list. -/
def c5scope : BudgetScope := { namespaces := ["ns1"], teams := ["team-a"] }

/-- C5: for a budget scoping both namespaces and teams, the code adds the
per-team query on top of the per-namespace query, so the single workload
whose cumulative cost is 10 is charged 20 over the period [0, 200]: the
namespace query (MAX of cumulative cost over ns1) already returns the full
10, and the team query (sum of latest cumulative cost per pod of team-a)
returns the same 10 again. -/
theorem c5_scope_spend_double_counts :
    calculateScopeSpend c5store c5scope 0 200 = 20 ∧
    GetCostByNamespace c5store "ns1" 0 200 = 10 ∧
    GetCostByTeam c5store "team-a" 0 200 = 10 := by
  refine ⟨?_, ?_, ?_⟩ <;>
    norm_num [calculateScopeSpend, GetCostByNamespace, GetCostByTeam, sqlMaxOrZero,
      podGroups, latestCostOfGroup, c5store, c5scope, List.dedup_cons_of_not_mem,
      List.dedup_nil]

/-- Webhook fixture for C2: all three sharing modes enabled. -/
def c2w : WebhookCfg := { enableMIG := true, enableMPS := true, enableTS := true }

/-- Pod fixture for C2: 8 whole GPUs and 100 GiB of memory with an explicit
hardware-partitioned sharing mode, so profile selection fails. -/
def c2p8 : Pod :=
  { annotations := [("gpu-autoscaler.io/sharing-mode", "mig")],
    labels := [], nodeSelector := [], tolerations := [],
    containers := [{ requests := [("nvidia.com/gpu", 8), ("memory", 107374182400)],
                     limits := [("nvidia.com/gpu", 8)] }] }

/-- C2 counterexample: a pod decode error does not admit the pod unchanged —
Handle returns an errored admission response with HTTP status 400. -/
theorem c2_decode_error_yields_errored_response :
    Handle c2w (some "t") none = HandleResult.errored 400 ∧
    Handle c2w (some "t") none ≠ HandleResult.allowed := by
  exact ⟨rfl, by decide⟩

/-- C2 amended: mutation errors fail open — the pod is admitted with its
original spec unchanged (the only reachable mutation error is MIG profile
selection failing; strategy classification is total, so classifier errors
cannot occur) — but a pod decode error yields an errored admission response
with HTTP status 400 rather than an allow. -/
theorem c2_mutation_error_fails_open :
    (∀ (w : WebhookCfg) (ts : Option String), Handle w ts none = HandleResult.errored 400) ∧
    (∀ (w : WebhookCfg) (ts : Option String) (p : Pod),
      selectOptimizationStrategy w p = "mig" →
      GetMIGProfile (getTotalGPURequest p) (getTotalMemoryRequest p) = none →
      Handle w ts (some p) = HandleResult.allowed) :=
  ⟨fun _ _ => rfl, fun w ts p hsel hprof => handle_mig_profile_none w ts p hsel hprof⟩

/-- C2 witness: the amended theorem at the concrete decode failure and at the
8-GPU 100 GiB pod whose profile selection fails. -/
theorem c2_witness :
    Handle c2w (some "t") none = HandleResult.errored 400 ∧
    Handle c2w (some "t") (some c2p8) = HandleResult.allowed :=
  ⟨c2_mutation_error_fails_open.1 c2w (some "t"),
   c2_mutation_error_fails_open.2 c2w (some "t") c2p8 (by decide) (by decide)⟩

/-- Webhook fixture for C3. -/
def c3w : WebhookCfg := { enableMIG := true, enableMPS := true, enableTS := true }

/-- Pod fixture for C3: an explicit hardware-partitioned sharing mode, one
container requesting 2 whole GPUs and 1 GiB of memory, and one container
carrying only a whole-GPU limit. The first pass converts to the 2g.10gb
profile; since the limit-only container keeps its whole-GPU limit, the second
pass runs the full MIG mutation again and re-derives the annotations from the
now-zero request total. -/
def c3pod : Pod :=
  { annotations := [("gpu-autoscaler.io/sharing-mode", "mig")],
    labels := [], nodeSelector := [], tolerations := [],
    containers :=
      [ { requests := [("nvidia.com/gpu", 2), ("memory", 1073741824)],
          limits := [("nvidia.com/gpu", 2)] },
        { requests := [], limits := [("nvidia.com/gpu", 1)] } ] }

/-- C3: the rewrite is not idempotent and is not guarded by the "optimized"
annotation. Applying the rewrite twice differs from applying it once: the
second pass re-runs the MIG mutation on the already-optimized pod (which
carries optimized = "true") and rewrites original-gpu-request from "2" to "0"
and the stored profile from 2g.10gb to 1g.5gb. -/
theorem c3_rewrite_not_idempotent :
    rewritePod c3w (some "t") (rewritePod c3w (some "t") c3pod)
        ≠ rewritePod c3w (some "t") c3pod ∧
    amapLookup (rewritePod c3w (some "t") c3pod).annotations
        "gpu-autoscaler.io/optimized" = some "true" ∧
    amapLookup (rewritePod c3w (some "t") c3pod).annotations
        "gpu-autoscaler.io/original-gpu-request" = some "2" ∧
    amapLookup (rewritePod c3w (some "t") (rewritePod c3w (some "t") c3pod)).annotations
        "gpu-autoscaler.io/original-gpu-request" = some "0" := by
  refine ⟨by decide, by decide, by decide, by decide⟩

/-- Config fixture for C1: scale-up cooldown of 180 s with predictive scaling
enabled. -/
def c1cfg : AutoscalerConfig :=
  { scaleUpThreshold := 1, scaleDownThreshold := 0, scaleUpCooldown := 180,
    scaleDownCooldown := 600, pendingPodTimeout := 120, maxNodes := 10, minNodes := 0,
    spotInstancePercentage := 0, enablePredictiveScaling := true, nodePools := [] }

/-- The same configuration with predictive scaling disabled. -/
def c1cfgOff : AutoscalerConfig := { c1cfg with enablePredictiveScaling := false }

/-- Prediction fixture for C1: a confident pre-warm recommendation for 5
nodes. -/
def c1pred : ScalingPrediction :=
  { predictedUtilization := 1, recommendedNodes := 5, shouldPreWarm := true }

/-- C1 counterexample: 100 s after the last scale-up — inside the 180 s
cooldown — a tick whose base gates hold still produces a scale-up decision,
because applyPredictiveScaling overrides the held decision without re-checking
the cooldown. -/
theorem c1_predictive_override_fires_in_cooldown :
    (100 : Int) - 0 < c1cfg.scaleUpCooldown ∧
    (analyzeClusterState c1cfg 0 0 100 [{ labels := [] }] [] 0 0 c1pred).action
        = ScalingAction.scaleUp := by
  exact ⟨by decide, by decide⟩

/-- C1 amended: during the scale-up cooldown the gate shouldScaleUp refuses,
so with predictive scaling disabled the tick never produces a scale-up
decision; the predictive-override step, when enabled, can substitute a
scale-up regardless of the cooldown. -/
theorem c1_no_scale_up_in_cooldown_without_predictive
    (cfg : AutoscalerConfig) (lastScaleUpTime lastScaleDownTime now : Int)
    (nodes : List ClusterNode) (pendingPods : List PendingPod)
    (avgUtilization : ℚ) (underutilizedNodes : Nat) (prediction : ScalingPrediction)
    (hcool : now - lastScaleUpTime < cfg.scaleUpCooldown)
    (hpred : cfg.enablePredictiveScaling = false) :
    (analyzeClusterState cfg lastScaleUpTime lastScaleDownTime now nodes pendingPods
        avgUtilization underutilizedNodes prediction).action ≠ ScalingAction.scaleUp := by
  have hup : shouldScaleUp cfg lastScaleUpTime now nodes pendingPods avgUtilization
      = false := by
    unfold shouldScaleUp
    simp [if_pos hcool]
  unfold analyzeClusterState
  simp only [hup, hpred, Bool.false_eq_true, if_false]
  split
  · simp
  · simp

/-- C1 witness: the amended theorem at the counterexample state with the
predictive scaler disabled. -/
theorem c1_witness :
    (analyzeClusterState c1cfgOff 0 0 100 [{ labels := [] }] [] 0 0 c1pred).action
        ≠ ScalingAction.scaleUp :=
  c1_no_scale_up_in_cooldown_without_predictive c1cfgOff 0 0 100 [{ labels := [] }] [] 0 0
    c1pred (by decide) (by decide)

/-- C9: after every status evaluation, exceededSince is non-null exactly when
that evaluation classified the budget as exceeded (percentage ≥ 100); it is
set to the evaluation time on a first transition into exceeded, preserved
while the budget stays exceeded, and cleared by any non-exceeded evaluation.
-/
theorem c9_exceeded_since_iff_exceeded (monthlyLimit currentSpend : ℚ)
    (prevExceededSince : Option Int) (now : Int) :
    ((updateBudgetStatus monthlyLimit currentSpend prevExceededSince now).exceededSince ≠ none
      ↔ (updateBudgetStatus monthlyLimit currentSpend prevExceededSince now).budgetStatus
          = "exceeded") ∧
    ((updateBudgetStatus monthlyLimit currentSpend prevExceededSince now).budgetStatus
        = "exceeded" → prevExceededSince = none →
      (updateBudgetStatus monthlyLimit currentSpend prevExceededSince now).exceededSince
        = some now) ∧
    (∀ t : Int,
      (updateBudgetStatus monthlyLimit currentSpend prevExceededSince now).budgetStatus
        = "exceeded" → prevExceededSince = some t →
      (updateBudgetStatus monthlyLimit currentSpend prevExceededSince now).exceededSince
        = some t) ∧
    ((updateBudgetStatus monthlyLimit currentSpend prevExceededSince now).budgetStatus
        ≠ "exceeded" →
      (updateBudgetStatus monthlyLimit currentSpend prevExceededSince now).exceededSince
        = none) := by
  unfold updateBudgetStatus
  by_cases h100 :
      (100 : ℚ) ≤ (if 0 < monthlyLimit then currentSpend / monthlyLimit * 100 else 0)
  · simp only [if_pos h100]
    cases prevExceededSince with
    | none => simp
    | some t => simp
  · simp only [if_neg h100]
    by_cases h80 :
        (80 : ℚ) ≤ (if 0 < monthlyLimit then currentSpend / monthlyLimit * 100 else 0)
    · simp [if_pos h80]
    · simp [if_neg h80]

/-- C9 witness: limit 1000, spend 1050 (105%), previously not exceeded,
evaluated at time 500. -/
theorem c9_witness :
    ((updateBudgetStatus 1000 1050 none 500).exceededSince ≠ none ↔
      (updateBudgetStatus 1000 1050 none 500).budgetStatus = "exceeded") ∧
    (updateBudgetStatus 1000 1050 none 500).exceededSince = some 500 := by
  have h := c9_exceeded_since_iff_exceeded 1000 1050 none 500
  have hex : (updateBudgetStatus 1000 1050 none 500).budgetStatus = "exceeded" := by
    unfold updateBudgetStatus
    norm_num
  exact ⟨h.1, h.2.1 hex rfl⟩

/-- Pod fixture for C10: one whole GPU with 1 GiB of memory. -/
def c10pod : Pod :=
  { annotations := [], labels := [], nodeSelector := [], tolerations := [],
    containers := [{ requests := [("nvidia.com/gpu", 1), ("memory", 1073741824)],
                     limits := [("nvidia.com/gpu", 1)] }] }

/-- C10: every successful mutation writes the optimization-timestamp
annotation from the context value at key "timestamp"; when the context does
not carry a string there, the unchecked type assertion panics, so no mutation
path completes normally (the MIG path can alternatively fail before the
assertion when no profile fits). -/
theorem c10_timestamp_assertion_panics :
    (∀ pod : Pod, applyMPSOptimization none pod = MutationResult.panicked) ∧
    (∀ pod : Pod, applyTimeSlicingOptimization none pod = MutationResult.panicked) ∧
    (∀ pod q : Pod, applyMIGOptimization none pod ≠ MutationResult.ok q) ∧
    (∀ (pod : Pod) (profile : MIGProfile),
      GetMIGProfile (getTotalGPURequest pod) (getTotalMemoryRequest pod) = some profile →
      applyMIGOptimization none pod = MutationResult.panicked) ∧
    (∀ (pod q : Pod) (ts : String),
      applyMIGOptimization (some ts) pod = MutationResult.ok q →
      amapLookup q.annotations "gpu-autoscaler.io/optimization-timestamp" = some ts) ∧
    (∀ (pod q : Pod) (ts : String),
      applyMPSOptimization (some ts) pod = MutationResult.ok q →
      amapLookup q.annotations "gpu-autoscaler.io/optimization-timestamp" = some ts) ∧
    (∀ (pod q : Pod) (ts : String),
      applyTimeSlicingOptimization (some ts) pod = MutationResult.ok q →
      amapLookup q.annotations "gpu-autoscaler.io/optimization-timestamp" = some ts) := by
  refine ⟨fun pod => rfl, fun pod => rfl, ?_, ?_, ?_, ?_, ?_⟩
  · intro pod q h
    unfold applyMIGOptimization at h
    cases hg : GetMIGProfile (getTotalGPURequest pod) (getTotalMemoryRequest pod) with
    | none => rw [hg] at h; exact MutationResult.noConfusion h
    | some profile => rw [hg] at h; exact MutationResult.noConfusion h
  · intro pod profile hg
    unfold applyMIGOptimization
    rw [hg]
  · intro pod q ts h
    unfold applyMIGOptimization at h
    cases hg : GetMIGProfile (getTotalGPURequest pod) (getTotalMemoryRequest pod) with
    | none => rw [hg] at h; exact MutationResult.noConfusion h
    | some profile =>
        rw [hg] at h
        have hq : q = setOptimizationMeta (ConvertPodToMIG profile pod) "mig" ts := by
          cases h; rfl
        rw [hq]
        exact amapLookup_insert_self _ _ _
  · intro pod q ts h
    have hq : q = setOptimizationMeta (ConvertPodToMPS DefaultMPSConfig pod) "mps" ts := by
      cases h; rfl
    rw [hq]
    exact amapLookup_insert_self _ _ _
  · intro pod q ts h
    have hq : q = setOptimizationMeta (ConvertPodToTimeSlicing 4 pod) "timeslicing" ts := by
      cases h; rfl
    rw [hq]
    exact amapLookup_insert_self _ _ _

/-- C10 witness: the theorem at the 1-GPU pod (whose MIG profile selection
succeeds with 1g.5gb) and at a concrete timestamp. -/
theorem c10_witness :
    applyMPSOptimization none c10pod = MutationResult.panicked ∧
    applyMIGOptimization none c10pod = MutationResult.panicked ∧
    amapLookup (setOptimizationMeta (ConvertPodToMPS DefaultMPSConfig c10pod) "mps"
        "2024-01-01").annotations "gpu-autoscaler.io/optimization-timestamp"
      = some "2024-01-01" :=
  ⟨c10_timestamp_assertion_panics.1 c10pod,
   c10_timestamp_assertion_panics.2.2.2.1 c10pod MIGProfile1g5gb (by decide),
   c10_timestamp_assertion_panics.2.2.2.2.2.1 c10pod
     (setOptimizationMeta (ConvertPodToMPS DefaultMPSConfig c10pod) "mps" "2024-01-01")
     "2024-01-01" rfl⟩

/-- The first-fit scan over the declared profile table, written out as the
chain of numeric guards it performs. -/
theorem migProfile_table_eq (g mMB : Nat) :
    findProfile g mMB GetSupportedProfiles =
      if g ≤ 1 ∧ mMB ≤ 5120 then some MIGProfile1g5gb
      else if g ≤ 2 ∧ mMB ≤ 10240 then some MIGProfile2g10gb
      else if g ≤ 3 ∧ mMB ≤ 20480 then some MIGProfile3g20gb
      else if g ≤ 4 ∧ mMB ≤ 20480 then some MIGProfile4g20gb
      else if g ≤ 7 ∧ mMB ≤ 40960 then some MIGProfile7g40gb
      else if g ≤ 1 ∧ mMB ≤ 10240 then some MIGProfile1g10gb
      else if g ≤ 2 ∧ mMB ≤ 20480 then some MIGProfile2g20gb
      else if g ≤ 3 ∧ mMB ≤ 40960 then some MIGProfile3g40gb
      else if g ≤ 4 ∧ mMB ≤ 40960 then some MIGProfile4g40gb
      else if g ≤ 7 ∧ mMB ≤ 81920 then some MIGProfile7g80gb
      else none := rfl

theorem MIGProfile1g5gb_compute : MIGProfile1g5gb.compute = 1 := rfl

theorem MIGProfile1g5gb_memory : MIGProfile1g5gb.memory = 5120 := rfl

theorem MIGProfile2g10gb_compute : MIGProfile2g10gb.compute = 2 := rfl

theorem MIGProfile2g10gb_memory : MIGProfile2g10gb.memory = 10240 := rfl

theorem MIGProfile3g20gb_compute : MIGProfile3g20gb.compute = 3 := rfl

theorem MIGProfile3g20gb_memory : MIGProfile3g20gb.memory = 20480 := rfl

theorem MIGProfile4g20gb_compute : MIGProfile4g20gb.compute = 4 := rfl

theorem MIGProfile4g20gb_memory : MIGProfile4g20gb.memory = 20480 := rfl

theorem MIGProfile7g40gb_compute : MIGProfile7g40gb.compute = 7 := rfl

theorem MIGProfile7g40gb_memory : MIGProfile7g40gb.memory = 40960 := rfl

theorem MIGProfile1g10gb_compute : MIGProfile1g10gb.compute = 1 := rfl

theorem MIGProfile1g10gb_memory : MIGProfile1g10gb.memory = 10240 := rfl

theorem MIGProfile2g20gb_compute : MIGProfile2g20gb.compute = 2 := rfl

theorem MIGProfile2g20gb_memory : MIGProfile2g20gb.memory = 20480 := rfl

theorem MIGProfile3g40gb_compute : MIGProfile3g40gb.compute = 3 := rfl

theorem MIGProfile3g40gb_memory : MIGProfile3g40gb.memory = 40960 := rfl

theorem MIGProfile4g40gb_compute : MIGProfile4g40gb.compute = 4 := rfl

theorem MIGProfile4g40gb_memory : MIGProfile4g40gb.memory = 40960 := rfl

theorem MIGProfile7g80gb_compute : MIGProfile7g80gb.compute = 7 := rfl

theorem MIGProfile7g80gb_memory : MIGProfile7g80gb.memory = 81920 := rfl

set_option maxHeartbeats 2000000 in
/-- C6: whenever some profile of the table fits (compute ≥ requested GPUs and
memory ≥ the MB-truncated requested memory), GetMIGProfile returns a fitting
profile that is smallest in the sense of the claim — no other fitting profile
has both a strictly smaller compute count and strictly smaller memory; when no
profile fits, selection returns none and a pod whose strategy is
hardware-partitioned is admitted unchanged by the webhook. -/
theorem c6_mig_profile_smallest_and_fail_open :
    (∀ (g m : Nat) (P : MIGProfile), GetMIGProfile g m = some P →
      P ∈ GetSupportedProfiles ∧
      g ≤ P.compute ∧ m / (1024 * 1024) ≤ P.memory ∧
      ∀ Q ∈ GetSupportedProfiles, g ≤ Q.compute → m / (1024 * 1024) ≤ Q.memory →
        ¬(Q.compute < P.compute ∧ Q.memory < P.memory)) ∧
    (∀ g m : Nat, GetMIGProfile g m = none →
      ∀ Q ∈ GetSupportedProfiles, ¬(g ≤ Q.compute ∧ m / (1024 * 1024) ≤ Q.memory)) ∧
    (∀ (w : WebhookCfg) (ts : Option String) (p : Pod),
      selectOptimizationStrategy w p = "mig" →
      GetMIGProfile (getTotalGPURequest p) (getTotalMemoryRequest p) = none →
      rewritePod w ts p = p) := by
  refine ⟨?_, ?_, ?_⟩
  · intro g m P h
    unfold GetMIGProfile at h
    rw [migProfile_table_eq] at h
    split_ifs at h with h1 h2 h3 h4 h5 h6 h7 h8 h9 h10
    all_goals first
      | exact Option.noConfusion h
      | (obtain rfl := Option.some.inj h
         refine ⟨by decide, ?_, ?_, ?_⟩
         · simp only [MIGProfile1g5gb_compute, MIGProfile2g10gb_compute,
             MIGProfile3g20gb_compute, MIGProfile4g20gb_compute, MIGProfile7g40gb_compute,
             MIGProfile1g10gb_compute, MIGProfile2g20gb_compute, MIGProfile3g40gb_compute,
             MIGProfile4g40gb_compute, MIGProfile7g80gb_compute]
           omega
         · simp only [MIGProfile1g5gb_memory, MIGProfile2g10gb_memory,
             MIGProfile3g20gb_memory, MIGProfile4g20gb_memory, MIGProfile7g40gb_memory,
             MIGProfile1g10gb_memory, MIGProfile2g20gb_memory, MIGProfile3g40gb_memory,
             MIGProfile4g40gb_memory, MIGProfile7g80gb_memory]
           omega
         · intro Q hQ hqc hqm hlt
           simp only [GetSupportedProfiles, List.mem_cons, List.not_mem_nil, or_false] at hQ
           rcases hQ with rfl | rfl | rfl | rfl | rfl | rfl | rfl | rfl | rfl | rfl <;>
             (simp only [MIGProfile1g5gb_compute, MIGProfile2g10gb_compute,
                MIGProfile3g20gb_compute, MIGProfile4g20gb_compute, MIGProfile7g40gb_compute,
                MIGProfile1g10gb_compute, MIGProfile2g20gb_compute, MIGProfile3g40gb_compute,
                MIGProfile4g40gb_compute, MIGProfile7g80gb_compute, MIGProfile1g5gb_memory,
                MIGProfile2g10gb_memory, MIGProfile3g20gb_memory, MIGProfile4g20gb_memory,
                MIGProfile7g40gb_memory, MIGProfile1g10gb_memory, MIGProfile2g20gb_memory,
                MIGProfile3g40gb_memory, MIGProfile4g40gb_memory, MIGProfile7g80gb_memory]
                at hqc hqm hlt
              omega))
  · intro g m hnone Q hQ hsat
    unfold GetMIGProfile at hnone
    rw [migProfile_table_eq] at hnone
    split_ifs at hnone with h1 h2 h3 h4 h5 h6 h7 h8 h9 h10
    all_goals first
      | exact Option.noConfusion hnone
      | (simp only [GetSupportedProfiles, List.mem_cons, List.not_mem_nil, or_false] at hQ
         rcases hQ with rfl | rfl | rfl | rfl | rfl | rfl | rfl | rfl | rfl | rfl <;>
           (simp only [MIGProfile1g5gb_compute, MIGProfile2g10gb_compute,
              MIGProfile3g20gb_compute, MIGProfile4g20gb_compute, MIGProfile7g40gb_compute,
              MIGProfile1g10gb_compute, MIGProfile2g20gb_compute, MIGProfile3g40gb_compute,
              MIGProfile4g40gb_compute, MIGProfile7g80gb_compute, MIGProfile1g5gb_memory,
              MIGProfile2g10gb_memory, MIGProfile3g20gb_memory, MIGProfile4g20gb_memory,
              MIGProfile7g40gb_memory, MIGProfile1g10gb_memory, MIGProfile2g20gb_memory,
              MIGProfile3g40gb_memory, MIGProfile4g40gb_memory, MIGProfile7g80gb_memory]
              at hsat
            omega))
  · intro w ts p hsel hprof
    unfold rewritePod
    rw [handle_mig_profile_none w ts p hsel hprof]

/-- Webhook fixture for C6. -/
def c6w : WebhookCfg := { enableMIG := true, enableMPS := true, enableTS := true }

/-- Pod fixture for C6: the boundary case of 8 whole GPUs and 100 GiB of
memory, which no profile fits. -/
def c6pod8 : Pod :=
  { annotations := [("gpu-autoscaler.io/sharing-mode", "mig")],
    labels := [], nodeSelector := [], tolerations := [],
    containers := [{ requests := [("nvidia.com/gpu", 8), ("memory", 107374182400)],
                     limits := [("nvidia.com/gpu", 8)] }] }

/-- C6 witness: at 1 GPU and 8 GiB the 2g.10gb profile is returned and fits,
and at the 8-GPU 100 GiB pod selection fails and the webhook admits the pod
unchanged. -/
theorem c6_witness :
    GetMIGProfile 1 8589934592 = some MIGProfile2g10gb ∧
    1 ≤ MIGProfile2g10gb.compute ∧ (8589934592 : Nat) / (1024 * 1024) ≤ MIGProfile2g10gb.memory ∧
    rewritePod c6w (some "t") c6pod8 = c6pod8 := by
  refine ⟨by decide, ?_, ?_, ?_⟩
  · exact (c6_mig_profile_smallest_and_fail_open.1 1 8589934592 MIGProfile2g10gb
      (by decide)).2.1
  · exact (c6_mig_profile_smallest_and_fail_open.1 1 8589934592 MIGProfile2g10gb
      (by decide)).2.2.1
  · exact c6_mig_profile_smallest_and_fail_open.2.2 c6w (some "t") c6pod8
      (by decide) (by decide)

/-- Every eviction event of the drain trace sits in exactly one of the three
wave blocks: indices below the low count are low-priority evictions with 0 s
grace, indices in the middle block are medium-priority evictions with 0 s
grace, and indices past both pauses are high-priority evictions with 30 s
grace. -/
theorem gracefullyEvictPods_evict_characterization (pods : List WorkloadPod) (i : Nat)
    (p : WorkloadPod) (g : Nat)
    (h : (gracefullyEvictPods pods)[i]? = some (DrainEvent.evict p g)) :
    (i < (pods.filter fun x => getPodEvictionPriority x = "low").length ∧
      getPodEvictionPriority p = "low" ∧ g = 0) ∨
    ((pods.filter fun x => getPodEvictionPriority x = "low").length + 1 ≤ i ∧
      i < (pods.filter fun x => getPodEvictionPriority x = "low").length + 1 +
        (pods.filter fun x => getPodEvictionPriority x = "medium").length ∧
      getPodEvictionPriority p = "medium" ∧ g = 0) ∨
    ((pods.filter fun x => getPodEvictionPriority x = "low").length +
        (pods.filter fun x => getPodEvictionPriority x = "medium").length + 2 ≤ i ∧
      getPodEvictionPriority p = "high" ∧ g = 30) := by
  unfold gracefullyEvictPods evictPods at h
  simp only [List.append_assoc, List.singleton_append, List.cons_append,
    List.nil_append] at h
  set L := pods.filter (fun x => getPodEvictionPriority x = "low") with hLdef
  set M := pods.filter (fun x => getPodEvictionPriority x = "medium") with hMdef
  set H := pods.filter (fun x => getPodEvictionPriority x = "high") with hHdef
  rw [List.getElem?_append] at h
  by_cases hi : i < (L.map fun p => DrainEvent.evict p 0).length
  · rw [if_pos hi] at h
    rw [List.getElem?_map] at h
    cases hL2 : L[i]? with
    | none => rw [hL2] at h; exact Option.noConfusion h
    | some x =>
        rw [hL2] at h
        simp only [Option.map_some'] at h
        obtain ⟨rfl, rfl⟩ := DrainEvent.evict.inj (Option.some.inj h)
        have hmem : x ∈ L := List.getElem?_mem hL2
        have hcls : getPodEvictionPriority x = "low" := by
          have := List.mem_filter.mp (hLdef ▸ hmem)
          exact of_decide_eq_true this.2
        left
        rw [List.length_map] at hi
        exact ⟨hi, hcls, rfl⟩
  · rw [if_neg hi] at h
    rw [List.length_map] at hi
    push_neg at hi
    rw [List.length_map] at h
    by_cases hieq : i = L.length
    · have hz : i - L.length = 0 := by omega
      rw [hz] at h
      rw [List.getElem?_cons_zero] at h
      simp at h
    · obtain ⟨j, hj⟩ : ∃ j, i - L.length = j + 1 := ⟨i - L.length - 1, by omega⟩
      rw [hj] at h
      rw [List.getElem?_cons_succ] at h
      rw [List.getElem?_append] at h
      by_cases hj2 : j < (M.map fun p => DrainEvent.evict p 0).length
      · rw [if_pos hj2] at h
        rw [List.getElem?_map] at h
        cases hM2 : M[j]? with
        | none => rw [hM2] at h; exact Option.noConfusion h
        | some x =>
            rw [hM2] at h
            simp only [Option.map_some'] at h
            obtain ⟨rfl, rfl⟩ := DrainEvent.evict.inj (Option.some.inj h)
            have hmem : x ∈ M := List.getElem?_mem hM2
            have hcls : getPodEvictionPriority x = "medium" := by
              have := List.mem_filter.mp (hMdef ▸ hmem)
              exact of_decide_eq_true this.2
            right; left
            rw [List.length_map] at hj2
            exact ⟨by omega, by omega, hcls, rfl⟩
      · rw [if_neg hj2] at h
        rw [List.length_map] at hj2
        push_neg at hj2
        rw [List.length_map] at h
        by_cases hjeq : j = M.length
        · have hz : j - M.length = 0 := by omega
          rw [hz] at h
          rw [List.getElem?_cons_zero] at h
          simp at h
        · obtain ⟨k, hk⟩ : ∃ k, j - M.length = k + 1 := ⟨j - M.length - 1, by omega⟩
          rw [hk] at h
          rw [List.getElem?_cons_succ] at h
          rw [List.getElem?_map] at h
          cases hH2 : H[k]? with
          | none => rw [hH2] at h; exact Option.noConfusion h
          | some x =>
              rw [hH2] at h
              simp only [Option.map_some'] at h
              obtain ⟨rfl, rfl⟩ := DrainEvent.evict.inj (Option.some.inj h)
              have hmem : x ∈ H := List.getElem?_mem hH2
              have hcls : getPodEvictionPriority x = "high" := by
                have := List.mem_filter.mp (hHdef ▸ hmem)
                exact of_decide_eq_true this.2
              right; right
              exact ⟨by omega, hcls, rfl⟩

/-- C8: the drain trace of one node evicts every low-priority workload with
0 s grace, every medium-priority workload with 0 s grace and every
high-priority workload with 30 s grace; graces are determined by the wave; an
eviction of an earlier wave always precedes every eviction of a later wave;
and the two 10 s pauses sit exactly between the waves. -/
theorem c8_drain_waves_strict_order (podsOnNode : List WorkloadPod) :
    (∀ p ∈ podsOnNode, getPodEvictionPriority p = "low" →
        DrainEvent.evict p 0 ∈ gracefullyEvictPods podsOnNode) ∧
    (∀ p ∈ podsOnNode, getPodEvictionPriority p = "medium" →
        DrainEvent.evict p 0 ∈ gracefullyEvictPods podsOnNode) ∧
    (∀ p ∈ podsOnNode, getPodEvictionPriority p = "high" →
        DrainEvent.evict p 30 ∈ gracefullyEvictPods podsOnNode) ∧
    (∀ (i : Nat) (p : WorkloadPod) (g : Nat),
        (gracefullyEvictPods podsOnNode)[i]? = some (DrainEvent.evict p g) →
        g = (if getPodEvictionPriority p = "high" then 30 else 0)) ∧
    (∀ (i j : Nat) (p q : WorkloadPod) (gp gq : Nat),
        (gracefullyEvictPods podsOnNode)[i]? = some (DrainEvent.evict p gp) →
        (gracefullyEvictPods podsOnNode)[j]? = some (DrainEvent.evict q gq) →
        ((getPodEvictionPriority p = "low" ∧ getPodEvictionPriority q = "medium") ∨
          (getPodEvictionPriority p = "low" ∧ getPodEvictionPriority q = "high") ∨
          (getPodEvictionPriority p = "medium" ∧ getPodEvictionPriority q = "high")) →
        i < j) ∧
    ((gracefullyEvictPods podsOnNode)[
        (podsOnNode.filter fun x => getPodEvictionPriority x = "low").length]?
      = some (DrainEvent.pause 10)) ∧
    ((gracefullyEvictPods podsOnNode)[
        (podsOnNode.filter fun x => getPodEvictionPriority x = "low").length + 1 +
          (podsOnNode.filter fun x => getPodEvictionPriority x = "medium").length]?
      = some (DrainEvent.pause 10)) := by
  refine ⟨?_, ?_, ?_, ?_, ?_, ?_, ?_⟩
  · intro p hp hcls
    unfold gracefullyEvictPods evictPods
    have hm : p ∈ podsOnNode.filter (fun x => getPodEvictionPriority x = "low") :=
      List.mem_filter.mpr ⟨hp, by simp [hcls]⟩
    simp only [List.mem_append]
    exact Or.inl (Or.inl (Or.inl (Or.inl (List.mem_map_of_mem _ hm))))
  · intro p hp hcls
    unfold gracefullyEvictPods evictPods
    have hm : p ∈ podsOnNode.filter (fun x => getPodEvictionPriority x = "medium") :=
      List.mem_filter.mpr ⟨hp, by simp [hcls]⟩
    simp only [List.mem_append]
    exact Or.inl (Or.inl (Or.inr (List.mem_map_of_mem _ hm)))
  · intro p hp hcls
    unfold gracefullyEvictPods evictPods
    have hm : p ∈ podsOnNode.filter (fun x => getPodEvictionPriority x = "high") :=
      List.mem_filter.mpr ⟨hp, by simp [hcls]⟩
    simp only [List.mem_append]
    exact Or.inr (List.mem_map_of_mem _ hm)
  · intro i p g h
    rcases gracefullyEvictPods_evict_characterization podsOnNode i p g h with
      ⟨_, hcls, rfl⟩ | ⟨_, _, hcls, rfl⟩ | ⟨_, hcls, rfl⟩ <;> simp [hcls]
  · intro i j p q gp gq hi hj hpair
    have ci := gracefullyEvictPods_evict_characterization podsOnNode i p gp hi
    have cj := gracefullyEvictPods_evict_characterization podsOnNode j q gq hj
    rcases hpair with ⟨hp, hq⟩ | ⟨hp, hq⟩ | ⟨hp, hq⟩ <;>
      rcases ci with ⟨hi1, hcp, _⟩ | ⟨hi1, hi2, hcp, _⟩ | ⟨hi1, hcp, _⟩ <;>
        rcases cj with ⟨hj1, hcq, _⟩ | ⟨hj1, hj2, hcq, _⟩ | ⟨hj1, hcq, _⟩ <;>
          first
            | omega
            | (rw [hp] at hcp; exact absurd hcp (by decide))
            | (rw [hq] at hcq; exact absurd hcq (by decide))
  · unfold gracefullyEvictPods evictPods
    simp only [List.append_assoc, List.singleton_append, List.cons_append,
      List.nil_append]
    rw [List.getElem?_append, List.length_map]
    rw [if_neg (lt_irrefl _)]
    rw [Nat.sub_self]
    exact List.getElem?_cons_zero
  · unfold gracefullyEvictPods evictPods
    simp only [List.append_assoc, List.singleton_append, List.cons_append,
      List.nil_append]
    rw [List.getElem?_append, List.length_map]
    rw [if_neg (by omega)]
    have harith :
        (podsOnNode.filter fun x => getPodEvictionPriority x = "low").length + 1 +
            (podsOnNode.filter fun x => getPodEvictionPriority x = "medium").length -
          (podsOnNode.filter fun x => getPodEvictionPriority x = "low").length
        = (podsOnNode.filter fun x => getPodEvictionPriority x = "medium").length + 1 := by
      omega
    rw [harith]
    rw [List.getElem?_cons_succ]
    rw [List.getElem?_append, List.length_map]
    rw [if_neg (lt_irrefl _)]
    rw [Nat.sub_self]
    exact List.getElem?_cons_zero

/-- Workload fixtures for C8: the spec's reclamation scenario — A is a
training workload, B inference, C development. -/
def c8podA : WorkloadPod :=
  { name := "A", annotations := [],
    labels := [("gpu-autoscaler.io/workload-type", "training")], priority := none }

/-- Workload B of the C8 scenario. -/
def c8podB : WorkloadPod :=
  { name := "B", annotations := [],
    labels := [("gpu-autoscaler.io/workload-type", "inference")], priority := none }

/-- Workload C of the C8 scenario. -/
def c8podC : WorkloadPod :=
  { name := "C", annotations := [],
    labels := [("gpu-autoscaler.io/workload-type", "development")], priority := none }

/-- The pods on the reclaimed node for the C8 witness. -/
def c8pods : List WorkloadPod := [c8podA, c8podB, c8podC]

/-- C8 witness: in the concrete scenario, C (low) is evicted with 0 s grace,
B (medium) with 0 s grace, A (high) with 30 s grace, and the eviction of C
precedes the eviction of A. -/
theorem c8_witness :
    DrainEvent.evict c8podC 0 ∈ gracefullyEvictPods c8pods ∧
    DrainEvent.evict c8podB 0 ∈ gracefullyEvictPods c8pods ∧
    DrainEvent.evict c8podA 30 ∈ gracefullyEvictPods c8pods ∧ (0 : Nat) < 4 :=
  ⟨(c8_drain_waves_strict_order c8pods).1 c8podC (by decide) (by decide),
   (c8_drain_waves_strict_order c8pods).2.1 c8podB (by decide) (by decide),
   (c8_drain_waves_strict_order c8pods).2.2.1 c8podA (by decide) (by decide),
   (c8_drain_waves_strict_order c8pods).2.2.2.2.1 0 4 c8podC c8podA 0 30
     (by decide) (by decide) (by decide)⟩

end GpuAutoscaler
